import Mathlib

/-!
Shallow embedding of the LogsGonstr security slice of the PortafolioGonstr
repository: the bounded in-memory security-event logger
(src/utils/security-logger.ts), the security-header middleware
(src/middleware.ts) and the token-gated status endpoint.

JavaScript records (plain objects) are modelled as association lists over
String keys; `objSet` mirrors a property write (update in place, else append),
which is exactly the semantics of an object-literal spread followed by
explicit keys. JS `||` on strings treats the empty string as falsy, modelled
by `jsOr` / `jsOrD`. Machine time (`new Date().toISOString()`, `Date.now()`)
and the build-time globals `__VERSION__` / `__BUILD_TIME__`, as well as the
`typeof window !== 'undefined'` test, are inputs gathered in `Env`, since the
code reads them as ambient values.
-/

/-- A JavaScript value as it occurs in the `details` records of this code
base: strings, booleans, numbers and `undefined`. -/
inductive JsValue where
  | str : String → JsValue
  | jsBool : Bool → JsValue
  | num : Int → JsValue
  | undef : JsValue
deriving DecidableEq

/-- Property read on a JS object (association list): the first binding of the
key, `none` when the key is absent (JS: `undefined` / `Headers.get` null). -/
def objGet {α : Type} : List (String × α) → String → Option α
  | [], _ => none
  | p :: rest, k => if p.1 = k then some p.2 else objGet rest k

/-- Property write on a JS object: an existing key keeps its position and gets
the new value, a new key is appended. On duplicate-free lists (every object a
JS program builds) this is the semantics of `{...o, k: v}`. -/
def objSet {α : Type} : List (String × α) → String → α → List (String × α)
  | [], k, v => [(k, v)]
  | p :: rest, k, v =>
    if p.1 = k then (k, v) :: objSet rest k v else p :: objSet rest k v

/-- JS `a || b` on an optional string: `null`/`undefined` and the empty string
fall through to `b`. -/
def jsOr (a : Option String) (b : Option String) : Option String :=
  match a with
  | some s => if s = "" then b else some s
  | none => b

/-- JS `a || d` with a string default. -/
def jsOrD (a : Option String) (d : String) : String :=
  match a with
  | some s => if s = "" then d else s
  | none => d

/-- Outcome of running a piece of JS code: a value, or a thrown exception
(carried as its string rendering). -/
inductive JsResult (α : Type) where
  | ok : α → JsResult α
  | thrown : String → JsResult α
deriving DecidableEq

/-- A JS `try { body } catch (e) { handler e }` whose handler does not
rethrow: the thrown value is swallowed. -/
def tryCatch {α : Type} (body : JsResult α) (handler : String → α) : JsResult α :=
  match body with
  | .ok v => .ok v
  | .thrown e => .ok (handler e)

/-- The four severity levels of `SecurityLog['level']`. -/
inductive LogLevel where
  | INFO
  | WARN
  | ERROR
  | CRITICAL
deriving DecidableEq

/-- The `SecurityLog` interface of security-logger.ts. -/
structure SecurityLog where
  timestamp : String
  level : LogLevel
  event : String
  details : List (String × JsValue)
  ip : Option String
  userAgent : Option String
  endpoint : Option String
deriving DecidableEq

/-- The slice of a `Request` the logger reads: its (lower-cased) header map,
its URL path and its URL query parameters. -/
structure Request where
  headers : List (String × String)
  pathname : String
  query : List (String × String)
deriving DecidableEq

/-- Ambient inputs the code reads: the current ISO timestamp and
millisecond clock, the injected build globals (empty string standing for a
falsy/undefined global), and whether a global `window` object exists. -/
structure Env where
  now : String
  nowMs : Nat
  version : String
  buildTime : String
  windowDefined : Bool

/-- `private readonly maxLogs = 1000`. -/
def maxLogs : Nat := 1000

/-- `__VERSION__ || '1.0.0-LogsGonstr'`. -/
def buildVersionConst (env : Env) : String :=
  if env.version = "" then "1.0.0-LogsGonstr" else env.version

/-- `__BUILD_TIME__ || new Date().toISOString()`. -/
def buildTimeConst (env : Env) : String :=
  if env.buildTime = "" then env.now else env.buildTime

/-- The `details` object of a log entry:
`{...details, buildVersion: ..., buildTime: ...}` — the caller's record
spread first, then the two injected keys written over it. -/
def mkDetails (details : List (String × JsValue)) (env : Env) :
    List (String × JsValue) :=
  objSet (objSet details "buildVersion" (JsValue.str (buildVersionConst env)))
    "buildTime" (JsValue.str (buildTimeConst env))

/-- `extractIP`: `x-vercel-forwarded-for || x-real-ip ||
x-forwarded-for?.split(',')[0] || undefined`. -/
def extractIP (request : Option Request) : Option String :=
  match request with
  | none => none
  | some req =>
    let forwardedFor := objGet req.headers "x-forwarded-for"
    let realIP := objGet req.headers "x-real-ip"
    let vercelForwardedFor := objGet req.headers "x-vercel-forwarded-for"
    jsOr vercelForwardedFor (jsOr realIP
      (jsOr (forwardedFor.map (fun s => (s.splitOn ",").headD "")) none))

/-- The `logEntry` object literal built at the top of `log`. -/
def mkLogEntry (env : Env) (level : LogLevel) (event : String)
    (details : List (String × JsValue)) (request : Option Request) :
    SecurityLog :=
  { timestamp := env.now
    level := level
    event := event
    details := mkDetails details env
    ip := extractIP request
    userAgent := jsOr (request.bind (fun r => objGet r.headers "user-agent")) none
    endpoint := request.map (fun r => r.pathname) }

/-- `this.logs.push(logEntry); if (this.logs.length > this.maxLogs)
this.logs.shift();` — append, then evict the oldest entry when over
capacity. -/
def pushBounded (logs : List SecurityLog) (entry : SecurityLog) :
    List SecurityLog :=
  let pushed := logs ++ [entry]
  if maxLogs < pushed.length then pushed.tail else pushed

/-- What one `log` call produces: the new buffer, and whether the
critical-alert dispatch was triggered
(`level === 'CRITICAL' && typeof window !== 'undefined'`). -/
structure LogOutcome where
  logs : List SecurityLog
  alertDispatched : Bool

/-- `LogsGonstrSecurity.log`: build the entry, append with eviction, and
decide whether `sendCriticalAlert` runs. Console writes carry no state. -/
def logRun (env : Env) (level : LogLevel) (event : String)
    (details : List (String × JsValue)) (request : Option Request)
    (logs : List SecurityLog) : LogOutcome :=
  let entry := mkLogEntry env level event details request
  { logs := pushBounded logs entry
    alertDispatched := decide (level = LogLevel.CRITICAL) && env.windowDefined }

/-- `sendCriticalAlert`: its whole body sits in a `try`/`catch` whose handler
only writes to the console, so any failure of the dispatch body is
swallowed. -/
def sendCriticalAlert (body : JsResult Unit) : JsResult Unit :=
  tryCatch body (fun _e => ())

/-- The arguments of one `log` call. -/
structure LogCall where
  env : Env
  level : LogLevel
  event : String
  details : List (String × JsValue)
  request : Option Request

/-- The entry a `log` call stores. -/
def entryOfCall (c : LogCall) : SecurityLog :=
  mkLogEntry c.env c.level c.event c.details c.request

/-- The buffer after a sequence of `log` calls, starting from the fresh
singleton's empty buffer. -/
def runLog (calls : List LogCall) : List SecurityLog :=
  calls.foldl
    (fun logs c => (logRun c.env c.level c.event c.details c.request logs).logs)
    []

/-- JS `arr.slice(-n)` for a non-negative `n`: the last `n` elements — except
that `slice(-0)` is `slice(0)` and yields the whole array. -/
def sliceNeg {α : Type} (l : List α) (n : Nat) : List α :=
  if n = 0 then l else l.drop (l.length - n)

/-- `getRecentLogs(limit)` (the source defaults `limit` to 50):
`this.logs.slice(-limit)`. -/
def getRecentLogs (logs : List SecurityLog) (limit : Nat) : List SecurityLog :=
  sliceNeg logs limit

/-- The filter predicate `log => log.level === level`. -/
def levelIs (level : LogLevel) (l : SecurityLog) : Bool :=
  decide (l.level = level)

/-- `getLogsByLevel(level, limit)` (the source defaults `limit` to 50):
filter by severity, then `slice(-limit)`. -/
def getLogsByLevel (logs : List SecurityLog) (level : LogLevel) (limit : Nat) :
    List SecurityLog :=
  sliceNeg (logs.filter (levelIs level)) limit

/-- `getCriticalEvents()`. -/
def getCriticalEvents (logs : List SecurityLog) : List SecurityLog :=
  logs.filter (levelIs LogLevel.CRITICAL)

/-- The `summary` reduce of `generateSecurityReport`: a counts-by-severity
map, missing keys reading as 0 (`(acc[log.level] || 0) + 1`). -/
def summaryFold (logs : List SecurityLog) : LogLevel → Nat :=
  logs.foldl
    (fun acc log => fun lv => if lv = log.level then acc lv + 1 else acc lv)
    (fun _ => 0)

/-- The record `generateSecurityReport` returns. -/
structure SecurityReport where
  summary : LogLevel → Nat
  recentEvents : List SecurityLog
  criticalEvents : List SecurityLog
  timeRangeFrom : String
  timeRangeTo : String

/-- `generateSecurityReport()`: severity counts, the 10 most recent events,
all critical events, and `logs[0]?.timestamp || now` /
`logs[length-1]?.timestamp || now` as the time range. -/
def generateSecurityReport (env : Env) (logs : List SecurityLog) :
    SecurityReport :=
  { summary := summaryFold logs
    recentEvents := getRecentLogs logs 10
    criticalEvents := getCriticalEvents logs
    timeRangeFrom := jsOrD (logs.head?.map (fun l => l.timestamp)) env.now
    timeRangeTo := jsOrD (logs.getLast?.map (fun l => l.timestamp)) env.now }

/-- An HTTP response as the middleware sees it: status, body text, and a
header map (written via `Headers.set`, which overwrites). -/
structure Response where
  status : Nat
  body : String
  headers : List (String × String)
deriving DecidableEq

/-- `response.headers.set(k, v)`. -/
def setHeader (r : Response) (k v : String) : Response :=
  { r with headers := objSet r.headers k v }

/-- The Content-Security-Policy value the middleware concatenates. -/
def cspValue : String :=
  "default-src 'self'; " ++
  "img-src 'self' https: data: blob:; " ++
  "style-src 'self' 'unsafe-inline' fonts.googleapis.com; " ++
  "font-src 'self' fonts.gstatic.com; " ++
  "script-src 'self' 'unsafe-inline'; " ++
  "connect-src 'self' vercel.live; " ++
  "frame-ancestors 'none'; " ++
  "base-uri 'self'"

/-- The Permissions-Policy value. -/
def permissionsPolicyValue : String :=
  "geolocation=(), microphone=(), camera=(), payment=(), usb=(), magnetometer=(), gyroscope=()"

/-- The success path of `onRequest`: the eight `headers.set` calls, in source
order, on the downstream response. -/
def applySecurityHeaders (r : Response) (nowMs : Nat) : Response :=
  let r1 := setHeader r "Content-Security-Policy" cspValue
  let r2 := setHeader r1 "X-Content-Type-Options" "nosniff"
  let r3 := setHeader r2 "X-Frame-Options" "DENY"
  let r4 := setHeader r3 "X-XSS-Protection" "1; mode=block"
  let r5 := setHeader r4 "Referrer-Policy" "strict-origin-when-cross-origin"
  let r6 := setHeader r5 "Permissions-Policy" permissionsPolicyValue
  let r7 := setHeader r6 "X-Powered-By-LogsGonstr" "Secure-Portfolio-v1.0"
  setHeader r7 "X-Security-Scan" (toString nowMs)

/-- The `errorResponse` built in the `catch` arm of `onRequest`. -/
def errorResponse (nowMs : Nat) : Response :=
  { status := 500
    body := "Internal Server Error"
    headers :=
      [("Content-Type", "text/plain"),
       ("X-Error-ID", "LogsGonstr-" ++ toString nowMs),
       ("X-Content-Type-Options", "nosniff"),
       ("X-Frame-Options", "DENY")] }

/-- `onRequest`: run the continuation; decorate its response on success,
substitute the fixed 500 response when it throws. `nowMs` is the `Date.now()`
reading on the return path. -/
def onRequest (nowMs : Nat) (next : JsResult Response) : Response :=
  match next with
  | .ok response => applySecurityHeaders response nowMs
  | .thrown _ => errorResponse nowMs

/-- The hardcoded `ADMIN_TOKEN` of the status endpoint. -/
def ADMIN_TOKEN : String := "LogsGonstr-Admin-2026"

/-- The JSON object the status endpoint serialises on success: the fixed
status envelope with the spread of `generateSecurityReport()`. -/
structure StatusBody where
  status : String
  timestamp : String
  version : String
  environment : String
  securityCsp : String
  securityHeaders : String
  securityMiddleware : String
  securityMonitoring : String
  summary : LogLevel → Nat
  recentEvents : List SecurityLog
  criticalEvents : List SecurityLog
  timeRangeFrom : String
  timeRangeTo : String

/-- A response body of the status endpoint: plain text, or the JSON
document. -/
inductive ApiBody where
  | text : String → ApiBody
  | json : StatusBody → ApiBody

/-- A response of the status endpoint. -/
structure ApiResponse where
  status : Nat
  body : ApiBody
  headers : List (String × String)

/-- The `GET` handler of the status endpoint: read `token` from the query
string, compare with `ADMIN_TOKEN`; on mismatch log a WARN event and return
401 Unauthorized, on match log an INFO event and return the report merged
with the status envelope. Returns the response with the logger's new
buffer. -/
def securityStatusGET (env : Env) (clientAddress : Option String)
    (req : Request) (logs : List SecurityLog) :
    ApiResponse × List SecurityLog :=
  let token := objGet req.query "token"
  if token ≠ some ADMIN_TOKEN then
    let outcome := logRun env LogLevel.WARN "SUSPICIOUS_ACCESS"
      [("reason", JsValue.str "Invalid admin token attempt"),
       ("ip", match clientAddress with
              | some a => JsValue.str a
              | none => JsValue.undef),
       ("endpoint", JsValue.str "/api/security-status")]
      (some req) logs
    ({ status := 401
       body := ApiBody.text "Unauthorized"
       headers :=
         [("Content-Type", "text/plain"),
          ("X-Security-Alert", "Invalid Token")] },
     outcome.logs)
  else
    let outcome := logRun env LogLevel.INFO "SECURITY_SCAN"
      [("action", JsValue.str "Security status requested"),
       ("admin", JsValue.jsBool true)]
      (some req) logs
    let report := generateSecurityReport env outcome.logs
    ({ status := 200
       body := ApiBody.json
         { status := "secure"
           timestamp := env.now
           version := "1.0.0-LogsGonstr"
           environment := "production"
           securityCsp := "enabled"
           securityHeaders := "secured"
           securityMiddleware := "active"
           securityMonitoring := "active"
           summary := report.summary
           recentEvents := report.recentEvents
           criticalEvents := report.criticalEvents
           timeRangeFrom := report.timeRangeFrom
           timeRangeTo := report.timeRangeTo }
       headers :=
         [("Content-Type", "application/json"),
          ("X-Security-Level", "high"),
          ("X-LogsGonstr-Version", "1.0.0")] },
     outcome.logs)

/-- A concrete critical event, used as a test vector. -/
def sampleLog : SecurityLog :=
  { timestamp := "2026-01-20T10:00:00.000Z"
    level := LogLevel.CRITICAL
    event := "XSS_ATTEMPT"
    details := [("buildVersion", JsValue.str "1.0.0-LogsGonstr")]
    ip := none
    userAgent := none
    endpoint := none }

/-- A concrete browser-side environment. -/
def env0 : Env :=
  { now := "2026-01-20T12:00:00.000Z"
    nowMs := 1768910400000
    version := "1.0.0"
    buildTime := "2026-01-20T00:00:00.000Z"
    windowDefined := true }

/-- A concrete server-side environment: no global `window`. -/
def envServer : Env :=
  { now := "2026-01-20T12:00:00.000Z"
    nowMs := 1768910400000
    version := "1.0.0"
    buildTime := "2026-01-20T00:00:00.000Z"
    windowDefined := false }

/-- A concrete request carrying a valid admin token. -/
def sampleReqOk : Request :=
  { headers := [("user-agent", "curl/8.0")]
    pathname := "/api/security-status"
    query := [("token", "LogsGonstr-Admin-2026")] }

/-- A concrete request with no token. -/
def sampleReqNoToken : Request :=
  { headers := []
    pathname := "/api/security-status"
    query := [] }

/-- The total of a severity-count map over the four levels. -/
def summaryTotal (s : LogLevel → Nat) : Nat :=
  s LogLevel.INFO + s LogLevel.WARN + s LogLevel.ERROR + s LogLevel.CRITICAL

theorem objGet_objSet_same {α : Type} (o : List (String × α)) (k : String)
    (v : α) : objGet (objSet o k v) k = some v := by
  induction o with
  | nil => simp [objGet, objSet]
  | cons p rest ih =>
    by_cases h : p.1 = k
    · simp [objSet, objGet, h]
    · simp [objSet, objGet, h, ih]

theorem objGet_objSet_ne {α : Type} {k q : String} (o : List (String × α))
    (v : α) (h : q ≠ k) : objGet (objSet o k v) q = objGet o q := by
  have hkq : ¬ k = q := fun hh => h (Eq.symm hh)
  induction o with
  | nil => simp [objGet, objSet, hkq]
  | cons p rest ih =>
    by_cases hp : p.1 = k
    · subst hp
      simp [objSet, objGet, hkq, ih]
    · simp only [objSet, if_neg hp]
      by_cases hq : p.1 = q
      · simp [objGet, hq]
      · simp [objGet, hq, ih]

theorem sliceNeg_suffix {α : Type} (l : List α) (n : Nat) :
    sliceNeg l n <:+ l := by
  unfold sliceNeg
  split
  · exact List.suffix_refl l
  · exact List.drop_suffix _ _

theorem length_sliceNeg {α : Type} (l : List α) (n : Nat) (h : 1 ≤ n) :
    (sliceNeg l n).length = min n l.length := by
  unfold sliceNeg
  rw [if_neg (by omega)]
  rw [List.length_drop]
  omega

theorem sliceNeg_all {α : Type} (l : List α) (n : Nat) (h : l.length ≤ n) :
    sliceNeg l n = l := by
  unfold sliceNeg
  split
  · rfl
  · rw [Nat.sub_eq_zero_of_le h, List.drop_zero]

theorem foldl_pushBounded_eq_drop (es : List SecurityLog) :
    es.foldl pushBounded [] = es.drop (es.length - maxLogs) := by
  induction es using List.reverseRecOn with
  | nil => rfl
  | append_singleton es e ih =>
    rw [List.foldl_append, List.foldl_cons, List.foldl_nil, ih]
    by_cases hn : es.length < maxLogs
    · have h0 : es.length - maxLogs = 0 := Nat.sub_eq_zero_of_le (Nat.le_of_lt hn)
      have h1 : (es ++ [e]).length - maxLogs = 0 := by
        rw [List.length_append]
        simp
        omega
      rw [h0, h1, List.drop_zero, List.drop_zero]
      unfold pushBounded
      rw [if_neg (by simp [List.length_append]; omega)]
    · push_neg at hn
      unfold pushBounded
      rw [if_pos (by simp [List.length_append, List.length_drop]; omega)]
      rw [← List.drop_append_of_le_length (by omega : es.length - maxLogs ≤ es.length)]
      rw [List.tail_drop]
      have hlen : es.length - maxLogs + 1 = (es ++ [e]).length - maxLogs := by
        rw [List.length_append]
        simp
        omega
      rw [hlen]

theorem runLog_eq_foldl (calls : List LogCall) :
    runLog calls = (calls.map entryOfCall).foldl pushBounded [] := by
  rw [List.foldl_map]
  rfl

theorem runLog_drop (calls : List LogCall) :
    runLog calls = (calls.map entryOfCall).drop (calls.length - maxLogs) := by
  rw [runLog_eq_foldl, foldl_pushBounded_eq_drop, List.length_map]

theorem runLog_length (calls : List LogCall) :
    (runLog calls).length = min calls.length maxLogs := by
  rw [runLog_drop, List.length_drop, List.length_map]
  omega

theorem summaryFold_aux (logs : List SecurityLog) :
    ∀ (acc : LogLevel → Nat) (lv : LogLevel),
    (logs.foldl
      (fun m log => fun x => if x = log.level then m x + 1 else m x) acc) lv
      = acc lv + (logs.filter (levelIs lv)).length := by
  induction logs with
  | nil => intro acc lv; simp
  | cons a rest ih =>
    intro acc lv
    rw [List.foldl_cons, ih]
    by_cases h : lv = a.level
    · subst h
      simp [List.filter_cons, levelIs]
      omega
    · have h2 : ¬ (a.level = lv) := fun hh => h (Eq.symm hh)
      simp [List.filter_cons, levelIs, h, h2]

theorem summaryFold_count (logs : List SecurityLog) (lv : LogLevel) :
    summaryFold logs lv = (logs.filter (levelIs lv)).length := by
  unfold summaryFold
  rw [summaryFold_aux]
  simp

theorem filter_levels_length (logs : List SecurityLog) :
    (logs.filter (levelIs LogLevel.INFO)).length
      + (logs.filter (levelIs LogLevel.WARN)).length
      + (logs.filter (levelIs LogLevel.ERROR)).length
      + (logs.filter (levelIs LogLevel.CRITICAL)).length
      = logs.length := by
  induction logs with
  | nil => rfl
  | cons a rest ih =>
    cases h : a.level <;> simp [List.filter_cons, levelIs, h] <;> omega

theorem getLast?_pushBounded (logs : List SecurityLog) (e : SecurityLog) :
    (pushBounded logs e).getLast? = some e := by
  show ((if maxLogs < (logs ++ [e]).length then (logs ++ [e]).tail
    else logs ++ [e]) : List SecurityLog).getLast? = some e
  split
  · cases logs with
    | nil =>
      rename_i hcond
      simp [maxLogs] at hcond
    | cons a as =>
      show (as ++ [e]).getLast? = some e
      exact List.getLast?_concat as
  · exact List.getLast?_concat logs

/-- C1: for every sequence of `log` calls, the Event Log's buffer has length
`min (number of calls) 1000` — hence at most 1000 at every point (every
intermediate point is `runLog` of a prefix) — and equals the suffix of the
recorded entries past the first `calls.length - 1000`, i.e. exactly the 1000
most recently recorded events in insertion order, the oldest evicted FIFO. -/
theorem eventLog_bounded_fifo (calls : List LogCall) :
    (runLog calls).length ≤ maxLogs ∧
    (runLog calls).length = min calls.length maxLogs ∧
    runLog calls = (calls.map entryOfCall).drop (calls.length - maxLogs) := by
  refine ⟨?_, runLog_length calls, runLog_drop calls⟩
  rw [runLog_length]
  exact Nat.min_le_right _ _

/-- C2 counterexample: the claim fails at `n = 0` on a non-empty log.
`getRecentLogs` is `this.logs.slice(-limit)`, and JS `slice(-0)` is
`slice(0)`: with one stored event, `getRecentLogs _ 0` returns that event,
so its length 1 exceeds `min 0 storedCount = 0`. -/
theorem getRecentLogs_zero_cex :
    getRecentLogs [sampleLog] 0 = [sampleLog] ∧
    ¬ ((getRecentLogs [sampleLog] 0).length ≤ min 0 1) := by
  refine ⟨rfl, ?_⟩
  decide

/-- C2 (amended): for every limit `n ≥ 1`, `getRecentLogs` returns a suffix
of the stored sequence (so, the most recent events in chronological order)
of length `min n storedCount`, and returns all stored events when `n`
exceeds the stored count; for `n = 0` it returns all stored events (JS
`slice(-0)` = `slice(0)`). -/
theorem getRecentLogs_amended (logs : List SecurityLog) (n : Nat)
    (h : 1 ≤ n) :
    getRecentLogs logs n <:+ logs ∧
    (getRecentLogs logs n).length = min n logs.length ∧
    (logs.length ≤ n → getRecentLogs logs n = logs) := by
  exact ⟨sliceNeg_suffix logs n, length_sliceNeg logs n h,
    fun hle => sliceNeg_all logs n hle⟩

/-- C2 witness: at `n = 3` on a one-event log, `getRecentLogs` returns the
whole log. -/
theorem getRecentLogs_amended_witness :
    getRecentLogs [sampleLog] 3 = [sampleLog] := by
  have h := getRecentLogs_amended [sampleLog] 3 (by decide)
  exact h.2.2 (by decide)

/-- C3 counterexample: the claim fails at `n = 0`. With one stored
critical event, `getLogsByLevel CRITICAL 0` returns that event (JS
`slice(-0)` is `slice(0)`) instead of the last 0 matching events, the
empty list. -/
theorem getLogsByLevel_zero_cex :
    getLogsByLevel [sampleLog] LogLevel.CRITICAL 0 = [sampleLog] ∧
    [sampleLog] ≠ ([] : List SecurityLog) := by
  refine ⟨rfl, ?_⟩
  decide

/-- C3 (amended): for every limit `n ≥ 1`, `getLogsByLevel level n` returns
only events of the given severity — a suffix of the severity-filtered
subsequence, of length `min n matchCount`, the filtered subsequence itself
being a sublist of the stored order (chronological); for `n = 0` it returns
all matching events. -/
theorem getLogsByLevel_amended (logs : List SecurityLog) (level : LogLevel)
    (n : Nat) (h : 1 ≤ n) :
    (∀ l ∈ getLogsByLevel logs level n, l.level = level) ∧
    getLogsByLevel logs level n <:+ logs.filter (levelIs level) ∧
    (getLogsByLevel logs level n).length
      = min n (logs.filter (levelIs level)).length ∧
    List.Sublist (logs.filter (levelIs level)) logs := by
  refine ⟨?_, sliceNeg_suffix _ n, length_sliceNeg _ n h,
    List.filter_sublist logs⟩
  intro l hl
  have hmem : l ∈ logs.filter (levelIs level) :=
    (sliceNeg_suffix (logs.filter (levelIs level)) n).subset hl
  have := (List.mem_filter.mp hmem).2
  unfold levelIs at this
  exact of_decide_eq_true this

/-- C3 witness: at `n = 5` on a one-critical-event log, the result has
length `min 5 1 = 1`. -/
theorem getLogsByLevel_amended_witness :
    (getLogsByLevel [sampleLog] LogLevel.CRITICAL 5).length = 1 := by
  have h := getLogsByLevel_amended [sampleLog] LogLevel.CRITICAL 5 (by decide)
  exact h.2.2.1.trans (by decide)

/-- C4: for every sequence of `log` calls, the per-severity counts of
`generateSecurityReport` sum to the number of currently retained events —
`min (number of calls) 1000` — not the lifetime number of calls: after
N > 1000 calls the counts sum to 1000. -/
theorem report_counts_sum_retained (env : Env) (calls : List LogCall) :
    summaryTotal (generateSecurityReport env (runLog calls)).summary
      = (runLog calls).length ∧
    (runLog calls).length = min calls.length maxLogs := by
  refine ⟨?_, runLog_length calls⟩
  show summaryTotal (summaryFold (runLog calls)) = _
  unfold summaryTotal
  rw [summaryFold_count, summaryFold_count, summaryFold_count,
    summaryFold_count]
  exact filter_levels_length (runLog calls)

/-- C5: for every stored state whose timestamps are non-empty (every entry
the code creates carries an ISO timestamp), the report's `recentEvents` is
the suffix of the 10 most recent events, `criticalEvents` is exactly the
critical-severity events in stored (chronological) order, and the time
range runs from the oldest to the newest retained timestamp, both
degenerating to the current time on an empty log. -/
theorem report_shape (env : Env) (logs : List SecurityLog)
    (hts : ∀ l ∈ logs, l.timestamp ≠ "") :
    (generateSecurityReport env logs).recentEvents <:+ logs ∧
    ((generateSecurityReport env logs).recentEvents).length
      = min 10 logs.length ∧
    List.Sublist (generateSecurityReport env logs).criticalEvents logs ∧
    (∀ l ∈ (generateSecurityReport env logs).criticalEvents,
      l.level = LogLevel.CRITICAL) ∧
    (∀ l ∈ logs, l.level = LogLevel.CRITICAL →
      l ∈ (generateSecurityReport env logs).criticalEvents) ∧
    (logs = [] → (generateSecurityReport env logs).timeRangeFrom = env.now ∧
      (generateSecurityReport env logs).timeRangeTo = env.now) ∧
    (logs ≠ [] →
      logs.head?.map SecurityLog.timestamp
        = some (generateSecurityReport env logs).timeRangeFrom ∧
      logs.getLast?.map SecurityLog.timestamp
        = some (generateSecurityReport env logs).timeRangeTo) := by
  refine ⟨sliceNeg_suffix logs 10, length_sliceNeg logs 10 (by omega),
    List.filter_sublist logs, ?_, ?_, ?_, ?_⟩
  · intro l hl
    have := (List.mem_filter.mp hl).2
    unfold levelIs at this
    exact of_decide_eq_true this
  · intro l hl hcrit
    refine List.mem_filter.mpr ⟨hl, ?_⟩
    unfold levelIs
    exact decide_eq_true hcrit
  · intro he
    subst he
    exact ⟨rfl, rfl⟩
  · intro hne
    cases logs with
    | nil => exact absurd rfl hne
    | cons a as =>
      constructor
      · have hts1 : a.timestamp ≠ "" := hts a (List.mem_cons_self a as)
        show some a.timestamp
          = some (jsOrD ((a :: as).head?.map (fun l => l.timestamp)) env.now)
        simp [jsOrD, hts1]
      · have hlast := List.getLast?_eq_getLast (a :: as) hne
        have htsl : ((a :: as).getLast hne).timestamp ≠ "" :=
          hts _ (List.getLast_mem hne)
        show ((a :: as).getLast?.map SecurityLog.timestamp)
          = some (jsOrD ((a :: as).getLast?.map (fun l => l.timestamp)) env.now)
        rw [hlast]
        simp [jsOrD, htsl]

/-- C5 witness: on a one-event log, `recentEvents` has length
`min 10 1 = 1`. -/
theorem report_shape_witness :
    ((generateSecurityReport env0 [sampleLog]).recentEvents).length = 1 := by
  have h := report_shape env0 [sampleLog] (by decide)
  exact h.2.1.trans (by decide)

/-- C9 counterexample: a critical-severity `log` call in a server-side
environment (no global `window`) does not trigger the external-alert
dispatch — `log` guards the dispatch with
`typeof window !== 'undefined'`. -/
theorem critical_log_no_dispatch_cex :
    (logRun envServer LogLevel.CRITICAL "SYSTEM_ERROR" [] none
      []).alertDispatched = false := rfl

/-- C9 (amended): `log` always succeeds with no error path — it appends the
constructed entry for every input; a critical-severity event triggers the
external-alert dispatch exactly when the global `window` object is defined;
and `sendCriticalAlert` never throws, any failure of the dispatch body being
swallowed by its catch-all handler. -/
theorem log_total_and_dispatch (env : Env) (level : LogLevel) (event : String)
    (details : List (String × JsValue)) (request : Option Request)
    (logs : List SecurityLog) (body : JsResult Unit) :
    (logRun env level event details request logs).logs
      = pushBounded logs (mkLogEntry env level event details request) ∧
    ((logRun env level event details request logs).alertDispatched = true ↔
      (level = LogLevel.CRITICAL ∧ env.windowDefined = true)) ∧
    sendCriticalAlert body = JsResult.ok () := by
  refine ⟨rfl, ?_, ?_⟩
  · show (decide (level = LogLevel.CRITICAL) && env.windowDefined) = true ↔ _
    simp
  · cases body with
    | ok v => rfl
    | thrown e => rfl

/-- C10: the two injected `details` fields win over caller-supplied entries:
looking up `buildVersion` or `buildTime` in a stored entry's details always
yields the injected process-wide constant, whatever the caller passed, and
every other caller-supplied key keeps its value. -/
theorem details_injected_fields_win (env : Env) (level : LogLevel)
    (event : String) (details : List (String × JsValue))
    (request : Option Request) :
    objGet (mkLogEntry env level event details request).details "buildVersion"
      = some (JsValue.str (buildVersionConst env)) ∧
    objGet (mkLogEntry env level event details request).details "buildTime"
      = some (JsValue.str (buildTimeConst env)) ∧
    ∀ k, k ≠ "buildVersion" → k ≠ "buildTime" →
      objGet (mkLogEntry env level event details request).details k
        = objGet details k := by
  refine ⟨?_, ?_, ?_⟩
  · show objGet (mkDetails details env) "buildVersion" = _
    unfold mkDetails
    rw [objGet_objSet_ne _ _ (by decide), objGet_objSet_same]
  · show objGet (mkDetails details env) "buildTime" = _
    unfold mkDetails
    rw [objGet_objSet_same]
  · intro k h1 h2
    show objGet (mkDetails details env) k = _
    unfold mkDetails
    rw [objGet_objSet_ne _ _ h2, objGet_objSet_ne _ _ h1]

/-- C6 counterexample: the success path does not produce nine security
headers. Decorating a downstream response that carries no headers yields a
response with exactly eight headers — the middleware performs eight
`headers.set` calls (CSP, nosniff, frame DENY, XSS protection, referrer
policy, permissions policy and the two custom markers), not nine. -/
theorem onRequest_not_nine_headers_cex :
    ((onRequest 0 (JsResult.ok
      { status := 200, body := "", headers := [] })).headers).length = 8 ∧
    ((onRequest 0 (JsResult.ok
      { status := 200, body := "", headers := [] })).headers).length ≠ 9 := by
  refine ⟨rfl, ?_⟩
  decide

/-- C6 (amended): for every successfully produced downstream response, the
decorated response carries all eight fixed security headers with the exact
documented values — Content-Security-Policy with the documented directives,
nosniff, frame DENY, XSS block, strict referrer policy, the documented
Permissions-Policy, and the two custom markers — and keeps the downstream
status and body. -/
theorem onRequest_success_headers (nowMs : Nat) (resp : Response) :
    objGet (onRequest nowMs (JsResult.ok resp)).headers
      "Content-Security-Policy" = some cspValue ∧
    objGet (onRequest nowMs (JsResult.ok resp)).headers
      "X-Content-Type-Options" = some "nosniff" ∧
    objGet (onRequest nowMs (JsResult.ok resp)).headers
      "X-Frame-Options" = some "DENY" ∧
    objGet (onRequest nowMs (JsResult.ok resp)).headers
      "X-XSS-Protection" = some "1; mode=block" ∧
    objGet (onRequest nowMs (JsResult.ok resp)).headers
      "Referrer-Policy" = some "strict-origin-when-cross-origin" ∧
    objGet (onRequest nowMs (JsResult.ok resp)).headers
      "Permissions-Policy" = some permissionsPolicyValue ∧
    objGet (onRequest nowMs (JsResult.ok resp)).headers
      "X-Powered-By-LogsGonstr" = some "Secure-Portfolio-v1.0" ∧
    objGet (onRequest nowMs (JsResult.ok resp)).headers
      "X-Security-Scan" = some (toString nowMs) ∧
    (onRequest nowMs (JsResult.ok resp)).status = resp.status ∧
    (onRequest nowMs (JsResult.ok resp)).body = resp.body := by
  have hon : onRequest nowMs (JsResult.ok resp) = applySecurityHeaders resp nowMs := rfl
  rw [hon]
  unfold applySecurityHeaders setHeader
  refine ⟨?_, ?_, ?_, ?_, ?_, ?_, ?_, ?_, rfl, rfl⟩
  · rw [objGet_objSet_ne _ _ (by decide), objGet_objSet_ne _ _ (by decide),
      objGet_objSet_ne _ _ (by decide), objGet_objSet_ne _ _ (by decide),
      objGet_objSet_ne _ _ (by decide), objGet_objSet_ne _ _ (by decide),
      objGet_objSet_ne _ _ (by decide), objGet_objSet_same]
  · rw [objGet_objSet_ne _ _ (by decide), objGet_objSet_ne _ _ (by decide),
      objGet_objSet_ne _ _ (by decide), objGet_objSet_ne _ _ (by decide),
      objGet_objSet_ne _ _ (by decide), objGet_objSet_ne _ _ (by decide),
      objGet_objSet_same]
  · rw [objGet_objSet_ne _ _ (by decide), objGet_objSet_ne _ _ (by decide),
      objGet_objSet_ne _ _ (by decide), objGet_objSet_ne _ _ (by decide),
      objGet_objSet_ne _ _ (by decide), objGet_objSet_same]
  · rw [objGet_objSet_ne _ _ (by decide), objGet_objSet_ne _ _ (by decide),
      objGet_objSet_ne _ _ (by decide), objGet_objSet_ne _ _ (by decide),
      objGet_objSet_same]
  · rw [objGet_objSet_ne _ _ (by decide), objGet_objSet_ne _ _ (by decide),
      objGet_objSet_ne _ _ (by decide), objGet_objSet_same]
  · rw [objGet_objSet_ne _ _ (by decide), objGet_objSet_ne _ _ (by decide),
      objGet_objSet_same]
  · rw [objGet_objSet_ne _ _ (by decide), objGet_objSet_same]
  · rw [objGet_objSet_same]

/-- C7: whenever the downstream handler throws, `onRequest` returns the
synthesized 500 response: body "Internal Server Error", content type
text/plain, the per-failure `X-Error-ID` identifier, and only the reduced
protective subset (nosniff and frame DENY) — four headers in total, the
full success-path set (e.g. Content-Security-Policy, Permissions-Policy)
not being applied. -/
theorem onRequest_failure_response (nowMs : Nat) (err : String) :
    (onRequest nowMs (JsResult.thrown err)).status = 500 ∧
    (onRequest nowMs (JsResult.thrown err)).body = "Internal Server Error" ∧
    objGet (onRequest nowMs (JsResult.thrown err)).headers "Content-Type"
      = some "text/plain" ∧
    objGet (onRequest nowMs (JsResult.thrown err)).headers "X-Error-ID"
      = some ("LogsGonstr-" ++ toString nowMs) ∧
    objGet (onRequest nowMs (JsResult.thrown err)).headers
      "X-Content-Type-Options" = some "nosniff" ∧
    objGet (onRequest nowMs (JsResult.thrown err)).headers "X-Frame-Options"
      = some "DENY" ∧
    ((onRequest nowMs (JsResult.thrown err)).headers).length = 4 ∧
    objGet (onRequest nowMs (JsResult.thrown err)).headers
      "Content-Security-Policy" = none ∧
    objGet (onRequest nowMs (JsResult.thrown err)).headers
      "Permissions-Policy" = none := by
  refine ⟨rfl, rfl, ?_, ?_, ?_, ?_, rfl, ?_, ?_⟩ <;>
    simp [onRequest, errorResponse, objGet]

/-- C8: for every GET of the status endpoint — if the `token` query
parameter equals the configured constant, the handler records an
info-severity event (the buffer's newest entry has level INFO) and returns
200 with the JSON body that merges the Event Log report (its `summary` is
the severity-count map of the new buffer, `status` is "secure") into the
fixed envelope; for any other token, including a missing one, it records a
warn-severity event and returns 401 with body "Unauthorized" and the
`X-Security-Alert` header. -/
theorem statusEndpoint_token_gate (env : Env) (addr : Option String)
    (req : Request) (logs : List SecurityLog) :
    (objGet req.query "token" = some ADMIN_TOKEN →
      (securityStatusGET env addr req logs).1.status = 200 ∧
      (∃ b, (securityStatusGET env addr req logs).1.body = ApiBody.json b ∧
        b.summary = summaryFold (securityStatusGET env addr req logs).2 ∧
        b.status = "secure") ∧
      ((securityStatusGET env addr req logs).2).getLast?.map SecurityLog.level
        = some LogLevel.INFO) ∧
    (objGet req.query "token" ≠ some ADMIN_TOKEN →
      (securityStatusGET env addr req logs).1.status = 401 ∧
      (securityStatusGET env addr req logs).1.body
        = ApiBody.text "Unauthorized" ∧
      objGet (securityStatusGET env addr req logs).1.headers
        "X-Security-Alert" = some "Invalid Token" ∧
      ((securityStatusGET env addr req logs).2).getLast?.map SecurityLog.level
        = some LogLevel.WARN) := by
  constructor
  · intro h
    have hcond : ¬ (objGet req.query "token" ≠ some ADMIN_TOKEN) := by
      simp [h]
    unfold securityStatusGET
    rw [if_neg hcond]
    refine ⟨rfl, ⟨_, rfl, rfl, rfl⟩, ?_⟩
    show (pushBounded logs _).getLast?.map SecurityLog.level = _
    rw [getLast?_pushBounded]
    rfl
  · intro h
    unfold securityStatusGET
    rw [if_pos h]
    refine ⟨rfl, rfl, rfl, ?_⟩
    show (pushBounded logs _).getLast?.map SecurityLog.level = _
    rw [getLast?_pushBounded]
    rfl
